import Mathlib

/-!
Shallow embedding of `src/app.py`, a Streamlit tool that converts geotagged
JPEG/PNG photographs into a KMZ archive (ground overlay + placemark per image).

Conventions of the embedding:
* Python floats are modelled as exact rationals (ℚ).  All float arithmetic in
  the source (sums, divisions, negation, abs) is exact on the inputs the
  program handles, so ℚ is a faithful carrier.
* Python EXIF values are modelled by the inductive `PyVal`: a number, a
  string, or a tuple of values.  `float()` applied to a non-number raises in
  Python; the model returns `none` there (numeric strings are not produced by
  PIL for the tags this program reads, so they are not modelled).
* Exceptions are modelled with `Except String`: a raised exception is
  `.error msg`.  Functions that catch all exceptions and return `None`
  (e.g. `get_gps_metadata`) collapse `.error _` to `none`.
* Python dicts are modelled as association lists with unique keys; dict
  lookup is `List.lookup` (first match).  PIL's `_getexif` yields tags keyed
  by their resolved EXIF names, in the file's tag order.
-/

/-- Model of a Python value as stored in the EXIF / GPS tag dictionaries:
a number, a string, or a tuple. -/
inductive PyVal where
  | num (x : ℚ)
  | str (s : String)
  | tup (xs : List PyVal)

/-- Model of Python `float(v)`: numbers convert, everything else raises
(`none`). -/
def pyFloat : PyVal → Option ℚ
  | .num x => some x
  | _ => none

/-- Model of Python `v == litStr` for a string literal: true exactly when `v`
is that string. -/
def pyEqStr (v : PyVal) (s : String) : Bool :=
  match v with
  | .str t => t == s
  | _ => false

/-- One component of a GPS DMS triplet, as evaluated by `convert_to_degrees`
(src/app.py:37-39): `float(c[0]) / float(c[1])` when the component is a tuple,
else `float(c)`.  Division by zero raises (`none`). -/
def compToVal (c : PyVal) : Option ℚ :=
  match c with
  | .tup xs => do
      let n ← (xs.get? 0).bind pyFloat
      let d ← (xs.get? 1).bind pyFloat
      if d = 0 then none else some (n / d)
  | c => pyFloat c

/-- `convert_to_degrees` (src/app.py:34-43): evaluate the first three
components of the value as degrees, minutes, seconds and return
`d + m/60 + s/3600`; any exception inside the `try` (indexing a non-tuple,
a short tuple, an unconvertible component, division by zero) is caught and
the function returns `None`. -/
def convert_to_degrees (value : PyVal) : Option ℚ :=
  match value with
  | .tup (c0 :: c1 :: c2 :: _) => do
      let d ← compToVal c0
      let m ← compToVal c1
      let s ← compToVal c2
      some (d + m / 60 + s / 3600)
  | _ => none

/-- A calendar date-time, the result of a successful `datetime.strptime`. -/
structure ExifDateTime where
  year : Nat
  month : Nat
  day : Nat
  hour : Nat
  minute : Nat
  second : Nat
deriving DecidableEq

/-- Gregorian leap-year test, as used by Python `datetime` validity checks. -/
def isLeap (y : Nat) : Bool :=
  (y % 4 == 0 && y % 100 != 0) || y % 400 == 0

/-- Number of days in a month, as used by Python `datetime` validity checks. -/
def daysInMonth (y m : Nat) : Nat :=
  if m = 2 then (if isLeap y then 29 else 28)
  else if m = 4 ∨ m = 6 ∨ m = 9 ∨ m = 11 then 30
  else 31

/-- Digit value of a character, `none` when not a decimal digit. -/
def digitVal (c : Char) : Option Nat :=
  if c.isDigit then some (c.toNat - 48) else none

/-- Two decimal digits. -/
def parse2 (a b : Char) : Option Nat := do
  let x ← digitVal a
  let y ← digitVal b
  some (10 * x + y)

/-- Four decimal digits. -/
def parse4 (a b c d : Char) : Option Nat := do
  let x ← parse2 a b
  let y ← parse2 c d
  some (100 * x + y)

/-- Model of `datetime.strptime(s, "%Y:%m:%d %H:%M:%S")` on the canonical
fixed-width EXIF form `YYYY:MM:DD HH:MM:SS` (the only form EXIF writers emit
for these tags).  Returns `none` (a `ValueError` in Python) when the string
does not match the pattern or the field values do not form a valid
date-time. -/
def strptimeExif (s : String) : Option ExifDateTime :=
  match s.data with
  | [y1, y2, y3, y4, a1, m1, m2, a2, d1, d2, a3, h1, h2, a4, i1, i2, a5, s1, s2] =>
      if a1 = ':' ∧ a2 = ':' ∧ a3 = ' ' ∧ a4 = ':' ∧ a5 = ':' then do
        let y ← parse4 y1 y2 y3 y4
        let mo ← parse2 m1 m2
        let d ← parse2 d1 d2
        let h ← parse2 h1 h2
        let mi ← parse2 i1 i2
        let se ← parse2 s1 s2
        if 1 ≤ y ∧ 1 ≤ mo ∧ mo ≤ 12 ∧ 1 ≤ d ∧ d ≤ daysInMonth y mo ∧
            h ≤ 23 ∧ mi ≤ 59 ∧ se ≤ 59 then
          some ⟨y, mo, d, h, mi, se⟩
        else none
      else none
  | _ => none

/-- Zero-padded two-digit rendering of a number below 100. -/
def pad2 (n : Nat) : String :=
  if n < 10 then "0" ++ toString n else toString n

/-- Zero-padded four-digit rendering of a number below 10000. -/
def pad4 (n : Nat) : String :=
  if n < 10 then "000" ++ toString n
  else if n < 100 then "00" ++ toString n
  else if n < 1000 then "0" ++ toString n
  else toString n

/-- Model of `.strftime("%Y-%m-%d %H:%M:%S")`. -/
def strftimeDash (t : ExifDateTime) : String :=
  pad4 t.year ++ "-" ++ pad2 t.month ++ "-" ++ pad2 t.day ++ " " ++
    pad2 t.hour ++ ":" ++ pad2 t.minute ++ ":" ++ pad2 t.second

/-- Value of one entry in the top-level EXIF dict: the `GPSInfo` tag carries a
nested dict (GPS tag name → value); every other tag carries a plain value. -/
inductive ExifVal where
  | gps (d : List (String × PyVal))
  | val (v : PyVal)

/-- One image file as the extractor sees it: the outcome of
`Image.open(...)._getexif()` — an exception (`Except.error`), `None`, or the
tag dict — together with the filesystem creation time used as the timestamp
fallback (src/app.py:77). -/
structure ImageFile where
  exif : Except String (Option (List (String × ExifVal)))
  ctime : ExifDateTime

/-- Parse-and-reformat of one date tag candidate (src/app.py:67):
`datetime.strptime(str(value), "%Y:%m:%d %H:%M:%S").strftime("%Y-%m-%d %H:%M:%S")`,
`none` when the value is not a string matching the pattern (the raised
`ValueError`/`TypeError` is caught by the surrounding `try`). -/
def parseFmtDate (v : ExifVal) : Option String :=
  match v with
  | .val (.str s) => (strptimeExif s).map strftimeDash
  | _ => none

/-- One step of the date-resolution part of the EXIF loop
(src/app.py:63-73): `DateTimeOriginal` always overwrites on a successful
parse; `DateTime` and `DateTimeDigitized` are tried only while no date has
been found; a parse failure leaves the accumulator unchanged (`continue`). -/
def stepDate (acc : Option String) (e : String × ExifVal) : Option String :=
  if e.1 = "DateTimeOriginal" then (parseFmtDate e.2).orElse (fun _ => acc)
  else if acc.isNone && e.1 = "DateTime" then (parseFmtDate e.2).orElse (fun _ => acc)
  else if acc.isNone && e.1 = "DateTimeDigitized" then (parseFmtDate e.2).orElse (fun _ => acc)
  else acc

/-- The resolved timestamp of one image (src/app.py:63-77): fold the date
logic over the EXIF entries; if no tag parsed, format the file's creation
time with the same output pattern. -/
def resolveDate (entries : List (String × ExifVal)) (ctime : ExifDateTime) : String :=
  (entries.foldl stepDate none).getD (strftimeDash ctime)

/-- The GPS-dict part of the EXIF loop (src/app.py:59-62): every `GPSInfo`
entry has its items copied into `gps_info`; calling `.items()` on a
non-dict value raises, aborting the extractor.  (The source runs one loop
updating `gps_info` and `date_taken`, two independent accumulators; the
embedding folds each separately over the same entry list.) -/
def gatherGps (entries : List (String × ExifVal)) :
    Except String (List (String × PyVal)) :=
  entries.foldlM (fun acc e =>
    if e.1 = "GPSInfo" then
      match e.2 with
      | .gps d => .ok (acc ++ d)
      | .val _ => .error "AttributeError"
    else .ok acc) []

/-- The record returned by `get_gps_metadata` (src/app.py:93-99).  The
`latitude`/`longitude` fields are `Option ℚ` because the source stores the
result of `convert_to_degrees`, which can be `None`. -/
structure GpsMetadata where
  latitude : Option ℚ
  longitude : Option ℚ
  altitude : ℚ
  orientation : PyVal
  date_created : String

/-- Model of Python `d[k]`: a missing key raises `KeyError`. -/
def pyGetKey (d : List (String × PyVal)) (k : String) : Except String PyVal :=
  match d.lookup k with
  | some v => .ok v
  | none => .error "KeyError"

/-- Model of `lat = -lat` on an `Option`: negating `None` raises
`TypeError`. -/
def negOpt (x : Option ℚ) : Except String (Option ℚ) :=
  match x with
  | some q => .ok (some (-q))
  | none => .error "TypeError"

/-- Altitude conversion (src/app.py:91):
`float(a[0]) / float(a[1]) if isinstance(a, tuple) else float(a)`; division
by zero and non-numeric values raise. -/
def altFloat (a : PyVal) : Except String ℚ :=
  match a with
  | .tup xs => do
      let n ← match (xs.get? 0).bind pyFloat with
        | some q => Except.ok q
        | none => Except.error "TypeError"
      let d ← match (xs.get? 1).bind pyFloat with
        | some q => Except.ok q
        | none => Except.error "TypeError"
      if d = 0 then .error "ZeroDivisionError" else .ok (n / d)
  | a => match pyFloat a with
      | some q => .ok q
      | none => .error "TypeError"

/-- Body of the `try` block of `get_gps_metadata` (src/app.py:47-100); a
raised exception is `Except.error`. -/
def get_gps_metadata_core (img : ImageFile) : Except String (Option GpsMetadata) := do
  let exifOpt ← img.exif
  match exifOpt with
  | none => pure none
  | some entries =>
    if entries.isEmpty then pure none
    else do
      let gps_info ← gatherGps entries
      let date_taken := resolveDate entries img.ctime
      if gps_info.isEmpty then pure none
      else
        match gps_info.lookup "GPSLatitude", gps_info.lookup "GPSLongitude" with
        | some latV, some lonV => do
            let lat := convert_to_degrees latV
            let lon := convert_to_degrees lonV
            let latRef ← pyGetKey gps_info "GPSLatitudeRef"
            let lat ← if pyEqStr latRef "S" then negOpt lat else pure lat
            let lonRef ← pyGetKey gps_info "GPSLongitudeRef"
            let lon ← if pyEqStr lonRef "W" then negOpt lon else pure lon
            let altitude := (gps_info.lookup "GPSAltitude").getD (.tup [.num 0, .num 1])
            let alt ← altFloat altitude
            pure (some
              { latitude := lat
                longitude := lon
                altitude := alt
                orientation := (gps_info.lookup "GPSImgDirection").getD (.num 0)
                date_created := date_taken })
        | _, _ => pure none

/-- `get_gps_metadata` (src/app.py:45-103): any exception is caught
(src/app.py:101-103), reported as a per-image error message, and the
function returns `None`. -/
def get_gps_metadata (img : ImageFile) : Option GpsMetadata :=
  match get_gps_metadata_core img with
  | .ok r => r
  | .error _ => none

/-- POSIX `os.path`: is the path absolute (starts with a slash)? -/
def isAbsPath (p : String) : Bool :=
  p.data.head? == some '/'

/-- POSIX `os.path`: does the path end with a slash? -/
def endsWithSlash (p : String) : Bool :=
  p.data.getLast? == some '/'

/-- Model of POSIX `os.path.join(a, b)`: an absolute second component
replaces the first; otherwise the parts are joined with a single slash. -/
def pathJoin (a b : String) : String :=
  if isAbsPath b then b
  else if a = "" || endsWithSlash a then a ++ b
  else a ++ "/" ++ b

/-- Everything after the last slash of a character list. -/
def basenameChars (l : List Char) : List Char :=
  (l.reverse.takeWhile (fun c => c ≠ '/')).reverse

/-- Model of POSIX `os.path.basename(p)`: everything after the last slash. -/
def basename (p : String) : String :=
  ⟨basenameChars p.data⟩

/-- Model of `str.lower().endswith((".jpg", ".jpeg", ".png"))`, the candidate
filter of src/app.py:108. -/
def isCandidateName (f : String) : Bool :=
  f.toLower.endsWith ".jpg" || f.toLower.endsWith ".jpeg" || f.toLower.endsWith ".png"

/-- The candidate images of a directory listing (src/app.py:108). -/
def candidateFiles (listing : List String) : List String :=
  listing.filter isCandidateName

/-- The fixed overlay size constant (src/app.py:128): `overlay_size = 0.0001`,
exactly 1/10000. -/
def overlay_size : ℚ := 1 / 10000

/-- A KML ground-overlay node as filled in by src/app.py:135-141. -/
structure OverlayNode where
  name : String
  north : ℚ
  south : ℚ
  east : ℚ
  west : ℚ
  rotation : ℚ

/-- The ground overlay built for one image (src/app.py:128-141): a box of
total width `overlay_size` centred on the coordinate, the rotation set to
`-abs(orientation)`. -/
def mkGroundOverlay (image_name : String) (lat lon orientation : ℚ) : OverlayNode :=
  { name := "Overlay - " ++ image_name
    north := lat + overlay_size / 2
    south := lat - overlay_size / 2
    east := lon + overlay_size / 2
    west := lon - overlay_size / 2
    rotation := -|orientation| }

/-- A KML point placemark as filled in by src/app.py:196-199 (the HTML
description block carries no claim and is not modelled). -/
structure KmlPoint where
  name : String
  lon : ℚ
  lat : ℚ
  alt : ℚ

/-- The mutable state of the image loop of `create_kmz_with_fan_overlay`
(src/app.py:109-201): the `has_data` flag, the `(image name, corrected image
path)` pairs, and the KML nodes appended so far. -/
structure LoopState where
  has_data : Bool
  kmz_images : List (String × String)
  overlays : List OverlayNode
  points : List KmlPoint

/-- Model of `float(metadata["orientation"])` (src/app.py:117): raises on a
non-numeric value. -/
def pyFloatE (v : PyVal) : Except String ℚ :=
  match pyFloat v with
  | some q => .ok q
  | none => .error "TypeError"

/-- Model of using an `Option ℚ` coordinate in float arithmetic
(src/app.py:129-132): arithmetic on `None` raises `TypeError`. -/
def reqFloat (x : Option ℚ) : Except String ℚ :=
  match x with
  | some q => .ok q
  | none => .error "TypeError"

/-- One iteration of the image loop of `create_kmz_with_fan_overlay`
(src/app.py:112-201): extract metadata; on `None` skip the image, otherwise
set the flag, save the orientation-corrected copy at
`os.path.join(folder_path, os.path.basename(image_path))`, build the ground
overlay and the placemark, and record the `(name, path)` pair.  A raised
exception (`None` coordinate in arithmetic, non-numeric heading) aborts the
whole call. -/
def processImage (folder : String) (st : LoopState) (item : String × ImageFile) :
    Except String LoopState :=
  match get_gps_metadata item.2 with
  | none => .ok st
  | some metadata => do
      let image_path := pathJoin folder item.1
      let orientation ← pyFloatE metadata.orientation
      let lat ← reqFloat metadata.latitude
      let lon ← reqFloat metadata.longitude
      let alt := metadata.altitude
      let image_name := basename image_path
      let corrected_image_path := pathJoin folder image_name
      let ov := mkGroundOverlay image_name lat lon orientation
      let pt : KmlPoint := { name := image_name, lon := lon, lat := lat, alt := alt }
      .ok { has_data := true
            kmz_images := st.kmz_images ++ [(image_name, corrected_image_path)]
            overlays := st.overlays ++ [ov]
            points := st.points ++ [pt] }

/-- The finished archive written at the output path (src/app.py:223-230): the
internal entry names in write order, plus the document content the claims
inspect. -/
structure KmzArchive where
  entries : List String
  overlays : List OverlayNode
  points : List KmlPoint
  kmz_images : List (String × String)

/-- `create_kmz_with_fan_overlay` (src/app.py:105-232): loop over the
candidate images of the directory; if no image produced metadata, raise
`ValueError("No valid GPS metadata found in the uploaded images.")` — at
that point nothing has been written at the output path — otherwise package
`doc.kml`, every corrected image, and the shared assets that exist.
`fanExists` / `logoExists` model the `os.path.exists` checks of
src/app.py:227-229; `fs` models opening a listed file. -/
def create_kmz_with_fan_overlay (folder : String) (listing : List String)
    (fs : String → ImageFile) (fanExists logoExists : Bool) :
    Except String KmzArchive := do
  let files := (candidateFiles listing).map (fun f => (f, fs f))
  let st ← files.foldlM (processImage folder) ⟨false, [], [], []⟩
  if st.has_data = false then
    .error "No valid GPS metadata found in the uploaded images."
  else
    .ok { entries := ["doc.kml"] ++ st.kmz_images.map Prod.fst
            ++ (if fanExists then ["Fan.png"] else [])
            ++ (if logoExists then ["Construct_Solutions_Logo_HALF.png"] else [])
          overlays := st.overlays
          points := st.points
          kmz_images := st.kmz_images }

/-- An opened PIL image as the Orientation Corrector sees it: pixel
dimensions, the accumulated counter-clockwise rotation applied to the pixel
content (a model of what `Image.rotate` does), and the outcome of reading its
EXIF tags, keyed by numeric tag id. -/
structure PImage where
  width : Nat
  height : Nat
  rotationCCW : Nat
  exif : Except String (Option (List (Nat × Nat)))

/-- Model of `image.rotate(angle, expand=True)`: the pixel content turns by
`angle` counter-clockwise and for a quarter turn the canvas swaps its
dimensions to fit. -/
def rotateExpand (img : PImage) (angle : Nat) : PImage :=
  if angle % 180 = 90 then
    { img with width := img.height, height := img.width,
               rotationCCW := (img.rotationCCW + angle) % 360 }
  else
    { img with rotationCCW := (img.rotationCCW + angle) % 360 }

/-- The numeric EXIF tag id whose `ExifTags.TAGS` name is `"Orientation"`,
found by the scan of src/app.py:18-20. -/
def orientationTagId : Nat := 274

/-- `correct_image_orientation` (src/app.py:15-32): read the EXIF dict; when
the orientation tag is present map 3 to a 180° rotation, 6 to a 270°
rotation, 8 to a 90° rotation (expanding), anything else to no change; any
exception while inspecting tags is caught and the image is returned
unmodified with a warning. -/
def correct_image_orientation (image : PImage) : PImage :=
  match image.exif with
  | .error _ => image
  | .ok none => image
  | .ok (some exif) =>
      match exif.lookup orientationTagId with
      | some 3 => rotateExpand image 180
      | some 6 => rotateExpand image 270
      | some 8 => rotateExpand image 90
      | _ => image

/-! ## Theorems -/

/-- C7: for every centre latitude and longitude (and heading), the overlay
bounding box satisfies north = lat + s/2, south = lat − s/2, east = lon + s/2,
west = lon − s/2 with s the fixed constant `overlay_size = 0.0001`; hence
north − south = east − west = s and the box's centre is the input coordinate
(exactly, in the rational model of float arithmetic). -/
theorem C7_overlay_box (image_name : String) (lat lon heading : ℚ) :
    (mkGroundOverlay image_name lat lon heading).north = lat + overlay_size / 2 ∧
    (mkGroundOverlay image_name lat lon heading).south = lat - overlay_size / 2 ∧
    (mkGroundOverlay image_name lat lon heading).east = lon + overlay_size / 2 ∧
    (mkGroundOverlay image_name lat lon heading).west = lon - overlay_size / 2 ∧
    (mkGroundOverlay image_name lat lon heading).north -
      (mkGroundOverlay image_name lat lon heading).south = overlay_size ∧
    (mkGroundOverlay image_name lat lon heading).east -
      (mkGroundOverlay image_name lat lon heading).west = overlay_size ∧
    ((mkGroundOverlay image_name lat lon heading).north +
      (mkGroundOverlay image_name lat lon heading).south) / 2 = lat ∧
    ((mkGroundOverlay image_name lat lon heading).east +
      (mkGroundOverlay image_name lat lon heading).west) / 2 = lon := by
  refine ⟨rfl, rfl, rfl, rfl, ?_, ?_, ?_, ?_⟩ <;> · simp only [mkGroundOverlay]; ring

/-- C2: for every image name, coordinate and heading value (positive,
negative, or zero), the rotation written into the ground-overlay node equals
the negative absolute value of the heading, hence is always ≤ 0. -/
theorem C2_rotation_neg_abs (image_name : String) (lat lon heading : ℚ) :
    (mkGroundOverlay image_name lat lon heading).rotation = -|heading| ∧
    (mkGroundOverlay image_name lat lon heading).rotation ≤ 0 := by
  constructor
  · rfl
  · show -|heading| ≤ 0
    exact neg_nonpos.mpr (abs_nonneg heading)

/-- C3: for every well-formed DMS triplet whose three components each
evaluate (rational pairs as numerator/denominator, plain numbers as
themselves), `convert_to_degrees` returns d + m/60 + s/3600. -/
theorem C3_convert_to_degrees (c0 c1 c2 : PyVal) (rest : List PyVal) (q0 q1 q2 : ℚ)
    (h0 : compToVal c0 = some q0) (h1 : compToVal c1 = some q1)
    (h2 : compToVal c2 = some q2) :
    convert_to_degrees (.tup (c0 :: c1 :: c2 :: rest)) =
      some (q0 + q1 / 60 + q2 / 3600) ∧
    (∀ n d : ℚ, d ≠ 0 → compToVal (.tup [.num n, .num d]) = some (n / d)) ∧
    (∀ x : ℚ, compToVal (.num x) = some x) := by
  refine ⟨?_, ?_, ?_⟩
  · simp [convert_to_degrees, h0, h1, h2]
  · intro n d hd
    simp [compToVal, pyFloat, hd]
  · intro x
    rfl

/-- Closed witness for C3 at the triplet 40° 26' 46" with rational
components. -/
theorem C3_convert_to_degrees_witness :
    convert_to_degrees (.tup [.tup [.num 40, .num 1], .tup [.num 26, .num 1],
        .tup [.num 46, .num 1]]) = some ((40 : ℚ) + 26 / 60 + 46 / 3600) :=
  (C3_convert_to_degrees (.tup [.num 40, .num 1]) (.tup [.num 26, .num 1])
    (.tup [.num 46, .num 1]) [] 40 (26 : ℚ) (46 : ℚ)
    (by norm_num [compToVal, pyFloat]) (by norm_num [compToVal, pyFloat])
    (by norm_num [compToVal, pyFloat])).1

/-- C8: the Orientation Corrector maps orientation tag value 3 to a 180°
rotation, 6 to a 270° rotation, 8 to a 90° rotation (the quarter turns swap
the canvas dimensions — expand), any other value or absence of the tag
leaves the image unchanged, and a failure while inspecting tags is
non-fatal, returning the image unmodified. -/
theorem C8_orientation_cases (image : PImage) :
    (∀ e, image.exif = .error e → correct_image_orientation image = image) ∧
    (image.exif = .ok none → correct_image_orientation image = image) ∧
    (∀ m, image.exif = .ok (some m) →
      (m.lookup orientationTagId = some 3 →
        correct_image_orientation image = rotateExpand image 180) ∧
      (m.lookup orientationTagId = some 6 →
        correct_image_orientation image = rotateExpand image 270) ∧
      (m.lookup orientationTagId = some 8 →
        correct_image_orientation image = rotateExpand image 90) ∧
      (∀ v, m.lookup orientationTagId = some v → v ≠ 3 → v ≠ 6 → v ≠ 8 →
        correct_image_orientation image = image) ∧
      (m.lookup orientationTagId = none → correct_image_orientation image = image)) ∧
    (rotateExpand image 180).width = image.width ∧
    (rotateExpand image 180).height = image.height ∧
    (rotateExpand image 90).width = image.height ∧
    (rotateExpand image 90).height = image.width ∧
    (rotateExpand image 270).width = image.height ∧
    (rotateExpand image 270).height = image.width := by
  refine ⟨?_, ?_, ?_, by simp [rotateExpand], by simp [rotateExpand],
    by simp [rotateExpand], by simp [rotateExpand],
    by simp [rotateExpand], by simp [rotateExpand]⟩
  · intro e he
    simp [correct_image_orientation, he]
  · intro he
    simp [correct_image_orientation, he]
  · intro m hm
    refine ⟨?_, ?_, ?_, ?_, ?_⟩
    · intro h3; simp [correct_image_orientation, hm, h3]
    · intro h6; simp [correct_image_orientation, hm, h6]
    · intro h8; simp [correct_image_orientation, hm, h8]
    · intro v hv h3 h6 h8
      simp only [correct_image_orientation, hm]
      rw [hv]
      rcases v with _ | v; · rfl
      rcases v with _ | v; · rfl
      rcases v with _ | v; · rfl
      rcases v with _ | v; · exact absurd rfl h3
      rcases v with _ | v; · rfl
      rcases v with _ | v; · rfl
      rcases v with _ | v; · exact absurd rfl h6
      rcases v with _ | v; · rfl
      rcases v with _ | v; · exact absurd rfl h8
      rfl
    · intro hnone; simp [correct_image_orientation, hm, hnone]

/-- Closed witness for C8: an image whose orientation tag is 6 gets a 270°
expanding rotation. -/
theorem C8_orientation_cases_witness :
    correct_image_orientation ⟨4, 3, 0, .ok (some [(274, 6)])⟩ =
      rotateExpand ⟨4, 3, 0, .ok (some [(274, 6)])⟩ 270 :=
  ((C8_orientation_cases ⟨4, 3, 0, .ok (some [(274, 6)])⟩).2.2.1
    [(274, 6)] rfl).2.1 rfl

/-- `takeWhile` walks through a prefix whose elements all satisfy the
predicate. -/
theorem takeWhile_append_all {p : Char → Bool} :
    ∀ (l1 l2 : List Char), (∀ c ∈ l1, p c = true) →
      (l1 ++ l2).takeWhile p = l1 ++ l2.takeWhile p := by
  intro l1
  induction l1 with
  | nil => intro l2 _; simp
  | cons a l ih =>
      intro l2 h
      have ha : p a = true := h a (List.mem_cons_self a l)
      simp only [List.cons_append, List.takeWhile_cons, ha, if_true]
      rw [ih l2 (fun c hc => h c (List.mem_cons_of_mem a hc))]

/-- A list without slashes is its own basename. -/
theorem basenameChars_of_no_slash (f : List Char) (h : '/' ∉ f) :
    basenameChars f = f := by
  unfold basenameChars
  rw [List.takeWhile_eq_self_iff.mpr, List.reverse_reverse]
  intro c hc
  have : c ∈ f := List.mem_reverse.mp hc
  simp only [decide_eq_true_eq]
  intro heq
  exact h (heq ▸ this)

/-- The basename of anything of the form `l ++ '/' :: f` with `f` slash-free
is `f`. -/
theorem basenameChars_append (l f : List Char) (h : '/' ∉ f) :
    basenameChars (l ++ '/' :: f) = f := by
  unfold basenameChars
  rw [List.reverse_append, List.reverse_cons]
  rw [List.append_assoc]
  rw [takeWhile_append_all f.reverse (['/'] ++ l.reverse) ?hall]
  case hall =>
    intro c hc
    have : c ∈ f := List.mem_reverse.mp hc
    simp only [decide_eq_true_eq]
    intro heq
    exact h (heq ▸ this)
  · simp [List.takeWhile_cons]

/-- C9: the corrected copy of an image is saved at
`os.path.join(folder_path, os.path.basename(image_path))` where
`image_path = os.path.join(folder_path, f)` for a directory entry `f`
(which contains no slash); that path is exactly the original source path, so
the corrected image overwrites the original in place. -/
theorem C9_corrected_path_overwrites (folder fname : String)
    (h : '/' ∉ fname.data) :
    basename (pathJoin folder fname) = fname ∧
    pathJoin folder (basename (pathJoin folder fname)) = pathJoin folder fname := by
  have habs : isAbsPath fname = false := by
    unfold isAbsPath
    cases hd : fname.data with
    | nil => rfl
    | cons c t =>
        have hc : c ≠ '/' := by
          intro hh
          exact h (hd ▸ (hh ▸ List.mem_cons_self c t))
        simp [hc]
  have hmain : basename (pathJoin folder fname) = fname := by
    unfold pathJoin
    rw [habs]
    simp only [Bool.false_eq_true, if_false]
    by_cases hf : folder = ""
    · subst hf
      rw [if_pos (by rfl)]
      apply String.ext
      show basenameChars ("" ++ fname).data = fname.data
      rw [String.data_append]
      show basenameChars ([] ++ fname.data) = fname.data
      rw [List.nil_append]
      exact basenameChars_of_no_slash fname.data h
    · by_cases hs : endsWithSlash folder = true
      · simp only [hs, Bool.or_true, if_true]
        obtain ⟨l, hl⟩ : ∃ l, folder.data = l ++ ['/'] := by
          have : folder.data.getLast? = some '/' := by
            have := hs
            unfold endsWithSlash at this
            exact eq_of_beq this
          exact (List.getLast?_eq_some_iff.mp this)
        apply String.ext
        show basenameChars (folder ++ fname).data = fname.data
        rw [String.data_append, hl, List.append_assoc]
        exact basenameChars_append l fname.data h
      · have hnot : (decide (folder = "") || endsWithSlash folder) = false := by
          simp [hf, Bool.eq_false_iff.mpr hs]
        rw [hnot]
        simp only [Bool.false_eq_true, if_false]
        apply String.ext
        show basenameChars (folder ++ "/" ++ fname).data = fname.data
        rw [String.data_append, String.data_append]
        have : ("/" : String).data = ['/'] := rfl
        rw [this, List.append_assoc]
        exact basenameChars_append folder.data fname.data h
  exact ⟨hmain, by rw [hmain]⟩

/-- Closed witness for C9 at folder `"tmp"` and entry `"a.jpg"`. -/
theorem C9_corrected_path_overwrites_witness :
    basename (pathJoin "tmp" "a.jpg") = "a.jpg" ∧
    pathJoin "tmp" (basename (pathJoin "tmp" "a.jpg")) = pathJoin "tmp" "a.jpg" :=
  C9_corrected_path_overwrites "tmp" "a.jpg" (by decide)

/-- An image without metadata leaves the loop state untouched. -/
theorem processImage_none (folder : String) (st : LoopState) (item : String × ImageFile)
    (h : get_gps_metadata item.2 = none) :
    processImage folder st item = .ok st := by
  unfold processImage
  rw [h]


/-- Computation rule: binding a successful `Except`. -/
theorem exceptBind_ok {α β : Type} (a : α) (f : α → Except String β) :
    (Except.ok a >>= f) = f a := rfl

/-- Computation rule: binding a failed `Except`. -/
theorem exceptBind_error {α β : Type} (e : String) (f : α → Except String β) :
    ((Except.error e : Except String α) >>= f) = Except.error e := rfl

/-- Computation rule: `pure` for `Except`. -/
theorem exceptPure {α : Type} (a : α) :
    (pure a : Except String α) = Except.ok a := rfl

/-- A successful loop iteration either skipped the image or set the flag and
appended exactly one pair, one overlay (built by `mkGroundOverlay`) and one
point. -/
theorem processImage_ok_cases (folder : String) (st : LoopState)
    (item : String × ImageFile) (st' : LoopState)
    (h : processImage folder st item = .ok st') :
    st' = st ∨
    ∃ nm cpath lat lon orient alt,
      st' = { has_data := true
              kmz_images := st.kmz_images ++ [(nm, cpath)]
              overlays := st.overlays ++ [mkGroundOverlay nm lat lon orient]
              points := st.points ++ [⟨nm, lon, lat, alt⟩] } := by
  cases hm : get_gps_metadata item.2 with
  | none =>
      simp only [processImage, hm] at h
      left
      exact (Except.ok.inj h).symm
  | some metadata =>
      simp only [processImage, hm] at h
      right
      cases ho : pyFloatE metadata.orientation with
      | error e =>
          rw [ho, exceptBind_error] at h
          exact Except.noConfusion h
      | ok orient =>
          rw [ho, exceptBind_ok] at h
          cases hla : reqFloat metadata.latitude with
          | error e =>
              rw [hla, exceptBind_error] at h
              exact Except.noConfusion h
          | ok lat =>
              rw [hla, exceptBind_ok] at h
              cases hlo : reqFloat metadata.longitude with
              | error e =>
                  rw [hlo, exceptBind_error] at h
                  exact Except.noConfusion h
              | ok lon =>
                  rw [hlo, exceptBind_ok] at h
                  refine ⟨basename (pathJoin folder item.1),
                    pathJoin folder (basename (pathJoin folder item.1)),
                    lat, lon, orient, metadata.altitude, ?_⟩
                  exact (Except.ok.inj h).symm

/-- A `foldlM` over `Except` preserves any invariant preserved by each
step. -/
theorem foldlM_except_inv {σ α : Type} (P : σ → Prop) (f : σ → α → Except String σ)
    (hf : ∀ s a s', P s → f s a = .ok s' → P s') :
    ∀ (l : List α) (s s' : σ), P s → l.foldlM f s = Except.ok s' → P s' := by
  intro l
  induction l with
  | nil =>
      intro s s' hs h
      simp only [List.foldlM_nil, exceptPure] at h
      exact (Except.ok.inj h) ▸ hs
  | cons a l ih =>
      intro s s' hs h
      rw [List.foldlM_cons] at h
      cases hfa : f s a with
      | error e =>
          rw [hfa, exceptBind_error] at h
          exact Except.noConfusion h
      | ok s1 =>
          rw [hfa, exceptBind_ok] at h
          exact ih s1 s' (hf s a s1 hs hfa) h

/-- A `foldlM` over `Except` whose steps all leave the state unchanged
returns the initial state. -/
theorem foldlM_except_id {σ α : Type} (f : σ → α → Except String σ) :
    ∀ (l : List α) (s : σ), (∀ a ∈ l, ∀ st, f st a = .ok st) →
      l.foldlM f s = Except.ok s := by
  intro l
  induction l with
  | nil =>
      intro s _
      rw [List.foldlM_nil]
      rfl
  | cons a l ih =>
      intro s h
      rw [List.foldlM_cons, h a (List.mem_cons_self a l) s, exceptBind_ok]
      exact ih s (fun b hb st => h b (List.mem_cons_of_mem a hb) st)

/-- C1: if no candidate image of the directory produces GPS metadata, then
`create_kmz_with_fan_overlay` raises the distinct
"No valid GPS metadata found in the uploaded images." error and no archive
is produced; and after any run of the image loop the `has_data` flag is true
exactly when the set of (image name, corrected-image path) pairs is
non-empty. -/
theorem C1_no_data_aborts (folder : String) (listing : List String)
    (fs : String → ImageFile) (fanExists logoExists : Bool)
    (h : ∀ f ∈ candidateFiles listing, get_gps_metadata (fs f) = none) :
    create_kmz_with_fan_overlay folder listing fs fanExists logoExists =
      .error "No valid GPS metadata found in the uploaded images." ∧
    ∀ (files : List (String × ImageFile)) (st : LoopState),
      files.foldlM (processImage folder) ⟨false, [], [], []⟩ = .ok st →
      (st.has_data = true ↔ st.kmz_images ≠ []) := by
  constructor
  · have hfold : ((candidateFiles listing).map (fun f => (f, fs f))).foldlM
        (processImage folder) (⟨false, [], [], []⟩ : LoopState) =
          Except.ok (⟨false, [], [], []⟩ : LoopState) :=
      foldlM_except_id _ _ _ (by
        intro a ha st
        obtain ⟨f, hf, rfl⟩ := List.mem_map.mp ha
        exact processImage_none folder st (f, fs f) (h f hf))
    simp only [create_kmz_with_fan_overlay]
    rw [hfold, exceptBind_ok]
    rfl
  · intro files st hfold
    exact foldlM_except_inv (fun s => s.has_data = true ↔ s.kmz_images ≠ [])
      (processImage folder)
      (fun s a s' hs hstep => by
        rcases processImage_ok_cases folder s a s' hstep with rfl | ⟨nm, cp, la, lo, o, al, rfl⟩
        · exact hs
        · simp)
      files ⟨false, [], [], []⟩ st (by simp) hfold

/-- Closed witness for C1: a single candidate image with no EXIF data makes
the whole call fail with the distinct error. -/
theorem C1_no_data_aborts_witness :
    create_kmz_with_fan_overlay "d" ["a.jpg"]
        (fun _ => ⟨Except.ok none, ⟨2023, 1, 1, 0, 0, 0⟩⟩) false false =
      .error "No valid GPS metadata found in the uploaded images." :=
  (C1_no_data_aborts "d" ["a.jpg"]
    (fun _ => ⟨Except.ok none, ⟨2023, 1, 1, 0, 0, 0⟩⟩) false false
    (fun _ _ => rfl)).1

/-- The tail of the extractor after both coordinate tags were found
(src/app.py:83-99): hemisphere sign application, altitude conversion, and
the final record. -/
def signAltChain (gps : List (String × PyVal)) (latV lonV : PyVal)
    (entries : List (String × ExifVal)) (ct : ExifDateTime) :
    Except String (Option GpsMetadata) := do
  let latRef ← pyGetKey gps "GPSLatitudeRef"
  let lat ← if pyEqStr latRef "S" then negOpt (convert_to_degrees latV)
    else pure (convert_to_degrees latV)
  let lonRef ← pyGetKey gps "GPSLongitudeRef"
  let lon ← if pyEqStr lonRef "W" then negOpt (convert_to_degrees lonV)
    else pure (convert_to_degrees lonV)
  let alt ← altFloat ((gps.lookup "GPSAltitude").getD (.tup [.num 0, .num 1]))
  pure (some
    { latitude := lat
      longitude := lon
      altitude := alt
      orientation := (gps.lookup "GPSImgDirection").getD (.num 0)
      date_created := resolveDate entries ct })

/-- Evaluation of the extractor down to the coordinate logic: with readable
EXIF, a non-empty tag dict, a gathered GPS dict, and both coordinate tags
present, the core reduces to the sign/altitude chain. -/
theorem core_eval (img : ImageFile) (entries : List (String × ExifVal))
    (gps : List (String × PyVal)) (latV lonV : PyVal)
    (hexif : img.exif = .ok (some entries))
    (hne : entries ≠ [])
    (hg : gatherGps entries = .ok gps)
    (hlat : gps.lookup "GPSLatitude" = some latV)
    (hlon : gps.lookup "GPSLongitude" = some lonV) :
    get_gps_metadata_core img = signAltChain gps latV lonV entries img.ctime := by
  have hne2 : entries.isEmpty = false := by
    cases entries with
    | nil => exact absurd rfl hne
    | cons a l => rfl
  have hgne : gps.isEmpty = false := by
    cases gps with
    | nil => exact absurd hlat (by simp [List.lookup])
    | cons a l => rfl
  simp only [get_gps_metadata_core, hexif, exceptBind_ok, hne2, Bool.false_eq_true,
    if_false, hg, hgne, hlat, hlon]
  rfl

/-- C6: with both coordinate conversions successful and both reference tags
present as strings, the returned latitude is negated exactly when the
latitude reference is "S" and the returned longitude is negated exactly when
the longitude reference is "W"; any other reference (in particular "N"/"E")
leaves the converted positive value unchanged. -/
theorem C6_hemisphere_sign (img : ImageFile) (entries : List (String × ExifVal))
    (gps : List (String × PyVal)) (latV lonV : PyVal) (qlat qlon qalt : ℚ)
    (rlat rlon : String)
    (hexif : img.exif = .ok (some entries))
    (hne : entries ≠ [])
    (hg : gatherGps entries = .ok gps)
    (hlat : gps.lookup "GPSLatitude" = some latV)
    (hlon : gps.lookup "GPSLongitude" = some lonV)
    (hclat : convert_to_degrees latV = some qlat)
    (hclon : convert_to_degrees lonV = some qlon)
    (hrlat : gps.lookup "GPSLatitudeRef" = some (.str rlat))
    (hrlon : gps.lookup "GPSLongitudeRef" = some (.str rlon))
    (halt : altFloat ((gps.lookup "GPSAltitude").getD (.tup [.num 0, .num 1])) = .ok qalt) :
    get_gps_metadata img = some
      { latitude := some (if rlat = "S" then -qlat else qlat)
        longitude := some (if rlon = "W" then -qlon else qlon)
        altitude := qalt
        orientation := (gps.lookup "GPSImgDirection").getD (.num 0)
        date_created := resolveDate entries img.ctime } := by
  simp only [get_gps_metadata, core_eval img entries gps latV lonV hexif hne hg hlat hlon,
    signAltChain, pyGetKey, hrlat, hrlon, hclat, hclon, halt, exceptBind_ok, exceptPure,
    pyEqStr]
  by_cases hr1 : rlat = "S" <;> by_cases hr2 : rlon = "W" <;>
    simp [hr1, hr2, negOpt, exceptBind_ok, exceptPure]

/-- Concrete EXIF entry list used by the C6 witness: latitude 10°30'36" S,
longitude 20°15'0" E. -/
def entriesC6 : List (String × ExifVal) :=
  [("GPSInfo", ExifVal.gps [
    ("GPSLatitude", PyVal.tup [.num 10, .num 30, .num 36]),
    ("GPSLatitudeRef", .str "S"),
    ("GPSLongitude", PyVal.tup [.num 20, .num 15, .num 0]),
    ("GPSLongitudeRef", .str "E")])]

/-- The GPS dict gathered from `entriesC6`. -/
def gpsC6 : List (String × PyVal) :=
  [("GPSLatitude", PyVal.tup [.num 10, .num 30, .num 36]),
   ("GPSLatitudeRef", .str "S"),
   ("GPSLongitude", PyVal.tup [.num 20, .num 15, .num 0]),
   ("GPSLongitudeRef", .str "E")]

/-- Closed witness for C6: reference "S" negates the 10.51° latitude,
reference "E" leaves the 20.25° longitude unchanged. -/
theorem C6_hemisphere_sign_witness :
    get_gps_metadata ⟨.ok (some entriesC6), ⟨2023, 1, 1, 0, 0, 0⟩⟩ = some
      { latitude := some (if "S" = "S" then -(1051 / 100 : ℚ) else (1051 / 100 : ℚ))
        longitude := some (if "E" = "W" then -(81 / 4 : ℚ) else (81 / 4 : ℚ))
        altitude := 0
        orientation := (gpsC6.lookup "GPSImgDirection").getD (.num 0)
        date_created := resolveDate entriesC6 ⟨2023, 1, 1, 0, 0, 0⟩ } :=
  C6_hemisphere_sign ⟨.ok (some entriesC6), ⟨2023, 1, 1, 0, 0, 0⟩⟩ entriesC6 gpsC6
    (PyVal.tup [.num 10, .num 30, .num 36]) (PyVal.tup [.num 20, .num 15, .num 0])
    (1051 / 100) (81 / 4) 0 "S" "E"
    rfl (List.cons_ne_nil _ _) rfl rfl rfl
    (by norm_num [convert_to_degrees, compToVal, pyFloat])
    (by norm_num [convert_to_degrees, compToVal, pyFloat])
    rfl rfl
    (by
      have h : gpsC6.lookup "GPSAltitude" = none := rfl
      rw [h]
      norm_num [altFloat, pyFloat, exceptBind_ok])

/-- C10: when the GPS dict holds both `GPSLatitude` and `GPSLongitude` but
lacks `GPSLatitudeRef` or `GPSLongitudeRef`, the direct dict access raises,
the extractor core fails with a per-image error, and `get_gps_metadata`
returns `None` — the image is never emitted with an assumed hemisphere. -/
theorem C10_missing_ref (img : ImageFile) (entries : List (String × ExifVal))
    (gps : List (String × PyVal)) (latV lonV : PyVal)
    (hexif : img.exif = .ok (some entries))
    (hne : entries ≠ [])
    (hg : gatherGps entries = .ok gps)
    (hlat : gps.lookup "GPSLatitude" = some latV)
    (hlon : gps.lookup "GPSLongitude" = some lonV)
    (hmiss : gps.lookup "GPSLatitudeRef" = none ∨ gps.lookup "GPSLongitudeRef" = none) :
    get_gps_metadata img = none ∧
    ∃ msg, get_gps_metadata_core img = .error msg := by
  have hcore : ∃ msg, get_gps_metadata_core img = .error msg := by
    rw [core_eval img entries gps latV lonV hexif hne hg hlat hlon]
    rcases hmiss with h1 | h2
    · exact ⟨"KeyError", by simp only [signAltChain, pyGetKey, h1, exceptBind_error]⟩
    · cases hl : gps.lookup "GPSLatitudeRef" with
      | none =>
          exact ⟨"KeyError", by simp only [signAltChain, pyGetKey, hl, exceptBind_error]⟩
      | some v =>
          by_cases hs : pyEqStr v "S" = true
          · cases hc : convert_to_degrees latV with
            | none =>
                refine ⟨"TypeError", ?_⟩
                simp only [signAltChain, pyGetKey, hl, exceptBind_ok, hs, if_true, hc,
                  negOpt, exceptBind_error]
            | some q =>
                refine ⟨"KeyError", ?_⟩
                simp only [signAltChain, pyGetKey, hl, exceptBind_ok, hs, if_true, hc,
                  negOpt, exceptBind_ok, h2, exceptBind_error]
          · rw [Bool.not_eq_true] at hs
            refine ⟨"KeyError", ?_⟩
            simp only [signAltChain, pyGetKey, hl, exceptBind_ok, hs, Bool.false_eq_true,
              if_false, exceptPure, exceptBind_ok, h2, exceptBind_error]
  obtain ⟨msg, hmsg⟩ := hcore
  refine ⟨?_, ⟨msg, hmsg⟩⟩
  simp only [get_gps_metadata, hmsg]

/-- Concrete EXIF entry list used by the C10 witness: both coordinates
present, no `GPSLatitudeRef`. -/
def entriesC10 : List (String × ExifVal) :=
  [("GPSInfo", ExifVal.gps [
    ("GPSLatitude", PyVal.tup [.num 10, .num 30, .num 36]),
    ("GPSLongitude", PyVal.tup [.num 20, .num 15, .num 0]),
    ("GPSLongitudeRef", .str "E")])]

/-- Closed witness for C10: an image with coordinates but no latitude
reference tag yields `None`. -/
theorem C10_missing_ref_witness :
    get_gps_metadata ⟨.ok (some entriesC10), ⟨2023, 1, 1, 0, 0, 0⟩⟩ = none :=
  (C10_missing_ref ⟨.ok (some entriesC10), ⟨2023, 1, 1, 0, 0, 0⟩⟩ entriesC10
    [("GPSLatitude", PyVal.tup [.num 10, .num 30, .num 36]),
     ("GPSLongitude", PyVal.tup [.num 20, .num 15, .num 0]),
     ("GPSLongitudeRef", .str "E")]
    (PyVal.tup [.num 10, .num 30, .num 36]) (PyVal.tup [.num 20, .num 15, .num 0])
    rfl (List.cons_ne_nil _ _) rfl rfl rfl (Or.inl rfl)).1

/-- Concrete EXIF entry list for C4: `GPSLatitude` is malformed (a plain
number where a triplet is expected), the references are "N"/"E", and
`GPSLongitude` is a valid triplet. -/
def entriesC4 : List (String × ExifVal) :=
  [("GPSInfo", ExifVal.gps [
    ("GPSLatitude", PyVal.num 0),
    ("GPSLatitudeRef", .str "N"),
    ("GPSLongitude", PyVal.tup [.num 20, .num 15, .num 0]),
    ("GPSLongitudeRef", .str "E")])]

/-- The GPS dict gathered from `entriesC4`. -/
def gpsC4 : List (String × PyVal) :=
  [("GPSLatitude", PyVal.num 0),
   ("GPSLatitudeRef", .str "N"),
   ("GPSLongitude", PyVal.tup [.num 20, .num 15, .num 0]),
   ("GPSLongitudeRef", .str "E")]

/-- Counterexample to C4: the malformed latitude triplet converts to a null
coordinate (first half of the claim holds), yet `get_gps_metadata` does NOT
return `None` for the image — with hemisphere reference "N" it returns a
metadata record whose latitude field is null. -/
theorem C4_counterexample_not_none :
    convert_to_degrees (PyVal.num 0) = none ∧
    (get_gps_metadata ⟨.ok (some entriesC4), ⟨2023, 1, 1, 0, 0, 0⟩⟩).isSome = true :=
  ⟨rfl, rfl⟩

/-- C4 (amended): a malformed or unparseable triplet yields a null
coordinate non-fatally; the extractor's overall result is `None` only when
the corresponding hemisphere reference is "S" (latitude) or "W" (longitude)
— negating the null coordinate raises, caught as a per-image error; with
any other reference the extractor returns a metadata record whose latitude
(resp. longitude) field is null. -/
theorem C4_null_coordinate (img : ImageFile) (entries : List (String × ExifVal))
    (gps : List (String × PyVal)) (latV lonV : PyVal) (olat olon : Option ℚ)
    (qalt : ℚ) (rlat rlon : String)
    (hexif : img.exif = .ok (some entries))
    (hne : entries ≠ [])
    (hg : gatherGps entries = .ok gps)
    (hlat : gps.lookup "GPSLatitude" = some latV)
    (hlon : gps.lookup "GPSLongitude" = some lonV)
    (hclat : convert_to_degrees latV = olat)
    (hclon : convert_to_degrees lonV = olon)
    (hrlat : gps.lookup "GPSLatitudeRef" = some (.str rlat))
    (hrlon : gps.lookup "GPSLongitudeRef" = some (.str rlon))
    (halt : altFloat ((gps.lookup "GPSAltitude").getD (.tup [.num 0, .num 1])) = .ok qalt) :
    (rlat = "S" → olat = none → get_gps_metadata img = none) ∧
    (rlon = "W" → olon = none → get_gps_metadata img = none) ∧
    ((rlat = "S" → ∃ q, olat = some q) → (rlon = "W" → ∃ q, olon = some q) →
      get_gps_metadata img = some
        { latitude := if rlat = "S" then olat.map (fun q => -q) else olat
          longitude := if rlon = "W" then olon.map (fun q => -q) else olon
          altitude := qalt
          orientation := (gps.lookup "GPSImgDirection").getD (.num 0)
          date_created := resolveDate entries img.ctime }) := by
  refine ⟨?_, ?_, ?_⟩
  · intro hr hnull
    subst hr
    have hc : convert_to_degrees latV = none := hnull ▸ hclat
    simp only [get_gps_metadata, core_eval img entries gps latV lonV hexif hne hg hlat hlon,
      signAltChain, pyGetKey, hrlat, hc, exceptBind_ok, pyEqStr]
    simp [negOpt, exceptBind_error]
  · intro hr hnull
    subst hr
    have hc : convert_to_degrees lonV = none := hnull ▸ hclon
    simp only [get_gps_metadata, core_eval img entries gps latV lonV hexif hne hg hlat hlon,
      signAltChain, pyGetKey, hrlat, hrlon, hclat, hc, exceptBind_ok, exceptPure, pyEqStr]
    rcases olat with _ | q <;> by_cases hr1 : rlat = "S" <;>
      simp [hr1, negOpt, exceptBind_ok, exceptBind_error, exceptPure]
  · intro hjlat hjlon
    simp only [get_gps_metadata, core_eval img entries gps latV lonV hexif hne hg hlat hlon,
      signAltChain, pyGetKey, hrlat, hrlon, hclat, hclon, halt, exceptBind_ok, exceptPure,
      pyEqStr]
    by_cases hr1 : rlat = "S"
    · obtain ⟨a, ha⟩ := hjlat hr1
      by_cases hr2 : rlon = "W"
      · obtain ⟨b, hb⟩ := hjlon hr2
        simp [hr1, hr2, ha, hb, negOpt, exceptBind_ok, exceptBind_error, exceptPure]
      · simp [hr1, hr2, ha, negOpt, exceptBind_ok, exceptBind_error, exceptPure]
    · by_cases hr2 : rlon = "W"
      · obtain ⟨b, hb⟩ := hjlon hr2
        simp [hr1, hr2, hb, negOpt, exceptBind_ok, exceptBind_error, exceptPure]
      · simp [hr1, hr2, negOpt, exceptBind_ok, exceptBind_error, exceptPure]

/-- Closed witness for the amended C4 at the concrete malformed-latitude
image with reference "N": the result is a record with a null latitude and
the converted longitude. -/
theorem C4_null_coordinate_witness :
    get_gps_metadata ⟨.ok (some entriesC4), ⟨2023, 1, 1, 0, 0, 0⟩⟩ = some
      { latitude := none
        longitude := some (if "E" = "W" then -(81 / 4 : ℚ) else (81 / 4 : ℚ))
        altitude := 0
        orientation := (gpsC4.lookup "GPSImgDirection").getD (.num 0)
        date_created := resolveDate entriesC4 ⟨2023, 1, 1, 0, 0, 0⟩ } :=
  (C4_null_coordinate ⟨.ok (some entriesC4), ⟨2023, 1, 1, 0, 0, 0⟩⟩ entriesC4 gpsC4
    (PyVal.num 0) (PyVal.tup [.num 20, .num 15, .num 0]) none (some (81 / 4)) 0 "N" "E"
    rfl (List.cons_ne_nil _ _) rfl rfl rfl rfl
    (by norm_num [convert_to_degrees, compToVal, pyFloat])
    rfl rfl
    (by
      have h : gpsC4.lookup "GPSAltitude" = none := rfl
      rw [h]
      norm_num [altFloat, pyFloat, exceptBind_ok])).2.2
    (fun h => absurd h (by decide)) (fun h => absurd h (by decide))

/-- Entries that are none of the three date tags leave the date accumulator
unchanged. -/
theorem foldl_stepDate_skip :
    ∀ (l : List (String × ExifVal)) (acc : Option String),
      (∀ e ∈ l, e.1 ≠ "DateTime" ∧ e.1 ≠ "DateTimeOriginal" ∧
        e.1 ≠ "DateTimeDigitized") →
      l.foldl stepDate acc = acc := by
  intro l
  induction l with
  | nil => intro acc _; rfl
  | cons a l ih =>
      intro acc h
      have ha := h a (List.mem_cons_self a l)
      rw [List.foldl_cons]
      have hstep : stepDate acc a = acc := by
        unfold stepDate
        rw [if_neg ha.2.1]
        rw [if_neg (by simp [ha.1])]
        rw [if_neg (by simp [ha.2.2])]
      rw [hstep]
      exact ih acc (fun e he => h e (List.mem_cons_of_mem a he))

/-- Folding the optional `DateTime` entry from an empty accumulator yields
its parse result. -/
theorem foldl_opt_DT (o : Option PyVal) :
    ((o.map fun v => ("DateTime", ExifVal.val v)).toList).foldl stepDate none =
      o.bind fun v => parseFmtDate (.val v) := by
  cases o with
  | none => rfl
  | some v =>
      show stepDate none ("DateTime", .val v) = parseFmtDate (.val v)
      unfold stepDate
      rw [if_neg (by simp), if_pos (by simp)]
      cases parseFmtDate (ExifVal.val v) <;> rfl

/-- Folding the optional `DateTimeOriginal` entry: a successful parse
overwrites the accumulator, otherwise the accumulator survives. -/
theorem foldl_opt_DTO (o : Option PyVal) (acc : Option String) :
    ((o.map fun v => ("DateTimeOriginal", ExifVal.val v)).toList).foldl stepDate acc =
      (o.bind fun v => parseFmtDate (.val v)).orElse (fun _ => acc) := by
  cases o with
  | none => rfl
  | some v =>
      show stepDate acc ("DateTimeOriginal", .val v) =
        (parseFmtDate (ExifVal.val v)).orElse (fun _ => acc)
      unfold stepDate
      rw [if_pos rfl]

/-- Folding the optional `DateTimeDigitized` entry: it is consulted only
when the accumulator is still empty. -/
theorem foldl_opt_DTD (o : Option PyVal) (acc : Option String) :
    ((o.map fun v => ("DateTimeDigitized", ExifVal.val v)).toList).foldl stepDate acc =
      acc.orElse (fun _ => o.bind fun v => parseFmtDate (.val v)) := by
  cases o with
  | none => cases acc <;> rfl
  | some v =>
      cases acc with
      | some s =>
          show stepDate (some s) ("DateTimeDigitized", .val v) = some s
          unfold stepDate
          rw [if_neg (by simp), if_neg (by simp), if_neg (by simp)]
      | none =>
          show stepDate none ("DateTimeDigitized", .val v) =
            (Option.orElse none fun _ => parseFmtDate (ExifVal.val v))
          unfold stepDate
          rw [if_neg (by simp), if_neg (by simp), if_pos (by simp)]
          cases parseFmtDate (ExifVal.val v) <;> rfl

/-- C5: over an EXIF entry list in the standard tag order (`DateTime` before
`DateTimeOriginal` before `DateTimeDigitized`, other tags anywhere), the
resolved timestamp is the first success of DateTimeOriginal, then DateTime,
then DateTimeDigitized — each candidate parsed against `YYYY:MM:DD HH:MM:SS`
and reformatted (`parseFmtDate`), a parse failure falling through — and when
all fail it is the file's creation time formatted the same way. -/
theorem C5_date_priority (l0 l1 l2 l3 : List (String × ExifVal))
    (oDT oDTO oDTD : Option PyVal) (ct : ExifDateTime)
    (h0 : ∀ e ∈ l0, e.1 ≠ "DateTime" ∧ e.1 ≠ "DateTimeOriginal" ∧
      e.1 ≠ "DateTimeDigitized")
    (h1 : ∀ e ∈ l1, e.1 ≠ "DateTime" ∧ e.1 ≠ "DateTimeOriginal" ∧
      e.1 ≠ "DateTimeDigitized")
    (h2 : ∀ e ∈ l2, e.1 ≠ "DateTime" ∧ e.1 ≠ "DateTimeOriginal" ∧
      e.1 ≠ "DateTimeDigitized")
    (h3 : ∀ e ∈ l3, e.1 ≠ "DateTime" ∧ e.1 ≠ "DateTimeOriginal" ∧
      e.1 ≠ "DateTimeDigitized") :
    resolveDate (l0 ++ (oDT.map fun v => ("DateTime", ExifVal.val v)).toList ++ l1 ++
        (oDTO.map fun v => ("DateTimeOriginal", ExifVal.val v)).toList ++ l2 ++
        (oDTD.map fun v => ("DateTimeDigitized", ExifVal.val v)).toList ++ l3) ct =
      (((oDTO.bind fun v => parseFmtDate (.val v)).orElse
          (fun _ => oDT.bind fun v => parseFmtDate (.val v))).orElse
          (fun _ => oDTD.bind fun v => parseFmtDate (.val v))).getD
        (strftimeDash ct) := by
  unfold resolveDate
  simp only [List.foldl_append]
  rw [foldl_stepDate_skip l0 none h0, foldl_opt_DT oDT,
    foldl_stepDate_skip l1 _ h1, foldl_opt_DTO oDTO _,
    foldl_stepDate_skip l2 _ h2, foldl_opt_DTD oDTD _,
    foldl_stepDate_skip l3 _ h3]

/-- Closed witness for C5: `DateTimeOriginal` is present but unparseable, so
the parseable `DateTime` tag wins and is reformatted with dashes. -/
theorem C5_date_priority_witness :
    resolveDate ([("Make", ExifVal.val (.str "Cam"))] ++
        [("DateTime", ExifVal.val (.str "2023:01:02 03:04:05"))] ++ [] ++
        [("DateTimeOriginal", ExifVal.val (.str "not a date"))] ++ [] ++ [] ++ [])
        ⟨2022, 5, 6, 7, 8, 9⟩ = "2023-01-02 03:04:05" :=
  (C5_date_priority [("Make", ExifVal.val (.str "Cam"))] [] [] []
    (some (.str "2023:01:02 03:04:05")) (some (.str "not a date")) none
    ⟨2022, 5, 6, 7, 8, 9⟩ (by decide) (by decide) (by decide) (by decide)).trans
    (by rfl)
